import Mathlib

/-!
Shallow embedding of `src/find/matchers/printer.rs` (the Printer matcher of
findutils) and proofs about it.

Modelling choices:
* A path is its raw byte sequence (`List Nat`, each element a byte value);
  `toStringLossy` models Rust's `Path::to_string_lossy` on Unix, i.e.
  UTF-8 decoding where each maximal invalid subpart becomes U+FFFD.
* An output destination (`impl Write`) is modelled by its observable trace of
  events (`SinkEvent`: a successful write of a string, or a successful flush)
  together with a per-invocation failure behaviour (`WriteBehavior`) saying
  whether the write and the flush of this invocation fail and with which
  `io::Error` display text.
* `MatcherIO` plus the process-global pieces the code touches (stderr, the
  context's shared default sink behind `deps.get_output().borrow_mut()`, and
  the optional output file) are flattened into an explicit `MatcherState`
  record that is threaded through each call; the `RefCell` scoped borrow of
  the default sink becomes ordinary sequential state passing.
* `out.flush().unwrap()` panicking (process abort) is modelled by the
  `Except` error constructor `Aborted.flushFailure`.
-/

namespace Findutils

/-- Replacement character U+FFFD used by Rust's lossy UTF-8 decoding. -/
def replacementChar : Char := Char.ofNat 0xFFFD

/-- Continuation byte test: `0x80 ≤ b < 0xC0` (bit pattern `10xxxxxx`). -/
def isContByte (b : Nat) : Bool := 0x80 ≤ b && b < 0xC0

/-- Valid second bytes for a three-byte sequence with lead byte `b`
(`0xE0` excludes overlong forms, `0xED` excludes surrogates). -/
def cont3Head (b b1 : Nat) : Bool :=
  if b = 0xE0 then 0xA0 ≤ b1 && b1 < 0xC0
  else if b = 0xED then 0x80 ≤ b1 && b1 < 0xA0
  else isContByte b1

/-- Valid second bytes for a four-byte sequence with lead byte `b`
(`0xF0` excludes overlong forms, `0xF4` caps at U+10FFFF). -/
def cont4Head (b b1 : Nat) : Bool :=
  if b = 0xF0 then 0x90 ≤ b1 && b1 < 0xC0
  else if b = 0xF4 then 0x80 ≤ b1 && b1 < 0x90
  else isContByte b1

/-- UTF-8 decoding with U+FFFD substitution for each maximal invalid
subpart, as performed by Rust's `String::from_utf8_lossy` (the engine behind
`Path::to_string_lossy` on Unix). Total on arbitrary byte lists. -/
def utf8DecodeLossy : List Nat → List Char
  | [] => []
  | b :: rest =>
    if b < 0x80 then
      Char.ofNat b :: utf8DecodeLossy rest
    else if b < 0xC2 then
      replacementChar :: utf8DecodeLossy rest
    else if b < 0xE0 then
      match rest with
      | [] => [replacementChar]
      | b1 :: rest1 =>
        if isContByte b1 then
          Char.ofNat ((b - 0xC0) * 0x40 + (b1 - 0x80)) :: utf8DecodeLossy rest1
        else
          replacementChar :: utf8DecodeLossy (b1 :: rest1)
    else if b < 0xF0 then
      match rest with
      | [] => [replacementChar]
      | b1 :: rest1 =>
        if cont3Head b b1 then
          match rest1 with
          | [] => [replacementChar]
          | b2 :: rest2 =>
            if isContByte b2 then
              Char.ofNat ((b - 0xE0) * 0x1000 + (b1 - 0x80) * 0x40 + (b2 - 0x80)) ::
                utf8DecodeLossy rest2
            else
              replacementChar :: utf8DecodeLossy (b2 :: rest2)
        else
          replacementChar :: utf8DecodeLossy (b1 :: rest1)
    else if b < 0xF5 then
      match rest with
      | [] => [replacementChar]
      | b1 :: rest1 =>
        if cont4Head b b1 then
          match rest1 with
          | [] => [replacementChar]
          | b2 :: rest2 =>
            if isContByte b2 then
              match rest2 with
              | [] => [replacementChar]
              | b3 :: rest3 =>
                if isContByte b3 then
                  Char.ofNat ((b - 0xF0) * 0x40000 + (b1 - 0x80) * 0x1000 +
                      (b2 - 0x80) * 0x40 + (b3 - 0x80)) :: utf8DecodeLossy rest3
                else
                  replacementChar :: utf8DecodeLossy (b3 :: rest3)
            else
              replacementChar :: utf8DecodeLossy (b2 :: rest2)
        else
          replacementChar :: utf8DecodeLossy (b1 :: rest1)
    else
      replacementChar :: utf8DecodeLossy rest

/-- Model of `file_info.path().to_string_lossy()`. -/
def toStringLossy (bytes : List Nat) : String := String.mk (utf8DecodeLossy bytes)

/-- Embedding of `enum PrintDelimiter { Newline, Null }`. -/
inductive PrintDelimiter
  | Newline
  | Null
  deriving DecidableEq, Repr

/-- Embedding of `impl Display for PrintDelimiter`: `Newline` renders via
`writeln!(f)` as a single newline, `Null` via `write!(f, "\0")` as a single
NUL character. -/
def PrintDelimiter.display : PrintDelimiter → String
  | .Newline => "\n"
  | .Null => "\x00"

/-- Embedding of `WalkEntry` restricted to what the Printer uses: the raw
bytes of its path. -/
structure WalkEntry where
  path : List Nat
  deriving DecidableEq, Repr

/-- Embedding of `struct Printer { delimiter, output_file: Option<Arc<File>> }`.
The file handle's identity is irrelevant to the observable behaviour, so the
`Arc<File>` payload is modelled as `Unit`; its write trace lives in
`MatcherState.fileEvents`. -/
structure Printer where
  delimiter : PrintDelimiter
  output_file : Option Unit
  deriving DecidableEq, Repr

/-- Embedding of `Printer::new`. -/
def Printer.new (delimiter : PrintDelimiter) (output_file : Option Unit) : Printer :=
  { delimiter := delimiter, output_file := output_file }

/-- Observable event on an output destination: a successful write of a
string, or a successful flush. -/
inductive SinkEvent
  | wrote (s : String)
  | flushed
  deriving DecidableEq, Repr

/-- Failure behaviour of the chosen destination for one invocation: `none`
means the operation succeeds, `some e` means it fails with an `io::Error`
whose display text is `e`. -/
structure WriteBehavior where
  writeErr : Option String
  flushErr : Option String
  deriving DecidableEq, Repr

/-- Process abort: `out.flush().unwrap()` panicked on an `Err` carrying the
given error text. -/
inductive Aborted
  | flushFailure (e : String)
  deriving DecidableEq, Repr

/-- Model of Rust's `Debug` formatting (`{:?}`) of a string: quoted, with
the common escapes. -/
def debugEscapeChar (c : Char) : String :=
  if c = '\\' then "\\\\"
  else if c = '\"' then "\\\""
  else if c = '\n' then "\\n"
  else if c = '\r' then "\\r"
  else if c = '\t' then "\\t"
  else if c.toNat = 0 then "\\0"
  else String.singleton c

/-- Quoted Debug rendering of a string, for the `{:?}` format argument. -/
def debugQuote (s : String) : String :=
  "\"" ++ String.join (s.toList.map debugEscapeChar) ++ "\""

/-- The single stderr line produced by
`writeln!(&mut stderr(), "Error writing {:?} for {}", path_lossy, e)`. -/
def writeErrorMessage (file_info : WalkEntry) (e : String) : String :=
  "Error writing " ++ debugQuote (toStringLossy file_info.path) ++ " for " ++ e

/-- The mutable state visible to `Printer::print`: the exit-code signal of
`MatcherIO`, the lines written to stderr, and the event trace of the `out`
destination it was handed. -/
structure PrintState where
  exitCode : Nat
  stderrLines : List String
  events : List SinkEvent
  deriving DecidableEq, Repr

/-- Embedding of `Printer::print`: write `"{}{}"` of the lossy path and the
delimiter to `out`; on write failure, when `print_error_message` is set,
report on stderr and `set_exit_code(1)`; finally `out.flush().unwrap()`,
which panics (aborts) when the flush fails. -/
def Printer.print (p : Printer) (file_info : WalkEntry) (st : PrintState)
    (beh : WriteBehavior) (print_error_message : Bool) : Except Aborted PrintState :=
  let s := toStringLossy file_info.path ++ p.delimiter.display
  let st1 :=
    match beh.writeErr with
    | none => { st with events := st.events ++ [SinkEvent.wrote s] }
    | some e =>
      if print_error_message then
        { st with
            stderrLines := st.stderrLines ++ [writeErrorMessage file_info e],
            exitCode := 1 }
      else st
  match beh.flushErr with
  | none => Except.ok { st1 with events := st1.events ++ [SinkEvent.flushed] }
  | some e => Except.error (Aborted.flushFailure e)

/-- The state a `matches` call can observe and mutate: the exit-code signal,
stderr, the context's shared default sink (`deps.get_output()`), and the
trace of the optional output file. -/
structure MatcherState where
  exitCode : Nat
  stderrLines : List String
  output : List SinkEvent
  fileEvents : List SinkEvent
  deriving DecidableEq, Repr

/-- Embedding of `Matcher::matches` for `Printer`: with an output file, print
to it with `print_error_message = true`; otherwise print to the context's
default sink (under its scoped exclusive borrow) with
`print_error_message = false`; then return `true`. `Except.error` is the
flush panic propagating as a process abort. -/
def Printer.matches (p : Printer) (file_info : WalkEntry) (st : MatcherState)
    (beh : WriteBehavior) : Except Aborted (Bool × MatcherState) :=
  match p.output_file with
  | some _ =>
    match p.print file_info ⟨st.exitCode, st.stderrLines, st.fileEvents⟩ beh true with
    | Except.ok ps =>
      Except.ok (true,
        { exitCode := ps.exitCode, stderrLines := ps.stderrLines,
          output := st.output, fileEvents := ps.events })
    | Except.error a => Except.error a
  | none =>
    match p.print file_info ⟨st.exitCode, st.stderrLines, st.output⟩ beh false with
    | Except.ok ps =>
      Except.ok (true,
        { exitCode := ps.exitCode, stderrLines := ps.stderrLines,
          output := ps.events, fileEvents := st.fileEvents })
    | Except.error a => Except.error a

/-- Embedding of `Matcher::has_side_effects` for `Printer`. -/
def Printer.has_side_effects (_ : Printer) : Bool := true

/-- A sequence of `matches` invocations through the same shared reference.
Rust's `fn matches(&self, ...)` takes the receiver by shared borrow and the
`Printer` fields have no interior mutability, so the receiver available after
each call is the unchanged `Printer`; the fold makes that receiver explicit
by threading it alongside the state. -/
def Printer.matchesSeq :
    Printer → List (WalkEntry × WriteBehavior) → MatcherState →
      Except Aborted (Printer × MatcherState)
  | p, [], st => Except.ok (p, st)
  | p, (e, beh) :: rest, st =>
    match p.matches e st beh with
    | Except.ok (_, st1) => Printer.matchesSeq p rest st1
    | Except.error a => Except.error a

/-- Concrete entry whose path is the single ASCII byte of the letter f. -/
def entryA : WalkEntry := ⟨[0x66]⟩

/-- Initial state: exit code 0, nothing written anywhere yet. -/
def st0 : MatcherState := ⟨0, [], [], []⟩

/-- Behaviour of a destination whose write always fails (full device) but
whose flush succeeds. -/
def behWriteFail : WriteBehavior := ⟨some "boom", none⟩

/-- Helper: decoding a non-empty byte list yields a non-empty char list —
every branch of the decoder emits at least one character. -/
theorem utf8DecodeLossy_cons_ne_nil (b : Nat) (rest : List Nat) :
    utf8DecodeLossy (b :: rest) ≠ [] := by
  unfold utf8DecodeLossy
  repeat' split
  all_goals simp

/-- Helper: a sequence of invocations never changes the threaded receiver. -/
theorem matchesSeq_printer_eq (p : Printer) :
    ∀ (l : List (WalkEntry × WriteBehavior)) (st : MatcherState) (q : Printer)
      (st1 : MatcherState),
      Printer.matchesSeq p l st = Except.ok (q, st1) → q = p := by
  intro l
  induction l with
  | nil =>
    intro st q st1 h
    simp [Printer.matchesSeq] at h
    exact h.1.symm
  | cons hd tl ih =>
    intro st q st1 h
    obtain ⟨e, beh⟩ := hd
    simp only [Printer.matchesSeq] at h
    cases hm : p.matches e st beh with
    | ok r =>
      obtain ⟨b, st2⟩ := r
      rw [hm] at h
      exact ih st2 q st1 h
    | error a => rw [hm] at h; exact absurd h (by simp)

/-- Claim C9: `has_side_effects` returns `true` for every Printer instance,
regardless of delimiter or destination configuration. -/
theorem C9_has_side_effects_always_true (p : Printer) :
    p.has_side_effects = true := rfl

/-- Claim C5: a flush failure is never absorbed — on the file-target path and
the default-sink path alike it escalates to a process abort, whatever the
write outcome was. -/
theorem C5_flush_failure_aborts (d : PrintDelimiter) (e : WalkEntry)
    (st : MatcherState) (w : Option String) (f : String) :
    (Printer.new d none).matches e st ⟨w, some f⟩ =
        Except.error (Aborted.flushFailure f) ∧
      (Printer.new d (some ())).matches e st ⟨w, some f⟩ =
        Except.error (Aborted.flushFailure f) := by
  constructor <;> cases w <;> rfl

/-- Claim C1 (amended): with an explicit file target, a failed write is NOT
silent — the invocation appends one stderr line naming the path and the
error, sets the exit-code signal to 1, still flushes, and returns `true`. -/
theorem C1_file_target_write_failure_diagnosed (d : PrintDelimiter)
    (e : WalkEntry) (st : MatcherState) (err : String) :
    (Printer.new d (some ())).matches e st ⟨some err, none⟩ =
      Except.ok (true,
        { exitCode := 1,
          stderrLines := st.stderrLines ++ [writeErrorMessage e err],
          output := st.output,
          fileEvents := st.fileEvents ++ [SinkEvent.flushed] }) := rfl

/-- Claim C1 is false on the code: at a concrete entry, a Printer with a file
target whose write fails produces the state with a diagnostic line and exit
code 1, and that state contradicts the claimed unchanged exit code and
absent diagnostic. -/
theorem C1_counterexample :
    (Printer.new PrintDelimiter.Newline (some ())).matches entryA st0 behWriteFail =
        Except.ok (true,
          ⟨1, [writeErrorMessage entryA "boom"], [], [SinkEvent.flushed]⟩) ∧
      ¬ ((1 : Nat) = st0.exitCode ∧
          [writeErrorMessage entryA "boom"] = st0.stderrLines) :=
  ⟨rfl, by decide⟩

/-- Claim C2 (amended): with no file target, a failed write to the context's
default sink is absorbed silently — no diagnostic, exit-code signal
unchanged, the sink is still flushed, and `matches` returns `true`. -/
theorem C2_default_sink_write_failure_silent (d : PrintDelimiter)
    (e : WalkEntry) (st : MatcherState) (err : String) :
    (Printer.new d none).matches e st ⟨some err, none⟩ =
      Except.ok (true, { st with output := st.output ++ [SinkEvent.flushed] }) := rfl

/-- Claim C2 is false on the code: at a concrete entry, a Printer with no
file target whose write fails leaves stderr empty and the exit code at 0,
contradicting the claimed diagnostic and non-zero exit-code signal. -/
theorem C2_counterexample :
    (Printer.new PrintDelimiter.Newline none).matches entryA st0 behWriteFail =
        Except.ok (true, ⟨0, [], [SinkEvent.flushed], []⟩) ∧
      ¬ ((0 : Nat) ≠ 0 ∧ ([] : List String) ≠ []) :=
  ⟨rfl, by decide⟩

/-- Claim C10: the flush is attempted even when the write failed — after a
failed write, a succeeding flush still lands on the chosen destination (on
both destination paths), and a failing flush still aborts the process (on
both destination paths). -/
theorem C10_flush_attempted_after_failed_write (d : PrintDelimiter)
    (e : WalkEntry) (st : MatcherState) (err ferr : String) :
    (Printer.new d none).matches e st ⟨some err, none⟩ =
        Except.ok (true, { st with output := st.output ++ [SinkEvent.flushed] }) ∧
      (Printer.new d (some ())).matches e st ⟨some err, none⟩ =
        Except.ok (true,
          { exitCode := 1,
            stderrLines := st.stderrLines ++ [writeErrorMessage e err],
            output := st.output,
            fileEvents := st.fileEvents ++ [SinkEvent.flushed] }) ∧
      (Printer.new d none).matches e st ⟨some err, some ferr⟩ =
        Except.error (Aborted.flushFailure ferr) ∧
      (Printer.new d (some ())).matches e st ⟨some err, some ferr⟩ =
        Except.error (Aborted.flushFailure ferr) :=
  ⟨rfl, rfl, rfl, rfl⟩

/-- Claim C3: for every configuration, entry and write/flush outcome that
does not abort the process, `matches` returns `true`. -/
theorem C3_matches_always_true (p : Printer) (e : WalkEntry) (st : MatcherState)
    (beh : WriteBehavior) (b : Bool) (st1 : MatcherState)
    (h : p.matches e st beh = Except.ok (b, st1)) : b = true := by
  obtain ⟨d, f⟩ := p
  obtain ⟨w, fl⟩ := beh
  cases f <;> cases w <;> cases fl <;>
    simp [Printer.matches, Printer.print] at h <;>
    exact h.1

/-- Witness for C3 at a concrete successful invocation. -/
theorem C3_witness : true = true :=
  C3_matches_always_true (Printer.new PrintDelimiter.Newline none) entryA st0
    ⟨none, none⟩ true
    ⟨0, [],
      [SinkEvent.wrote (toStringLossy entryA.path ++ PrintDelimiter.Newline.display),
        SinkEvent.flushed], []⟩ rfl

/-- Claim C4: a successful invocation appends to the chosen destination
exactly one write of `<path-text><delimiter>` immediately followed by one
flush, with no other framing; the delimiter renders as a single newline for
`Newline` and a single NUL character for `Null`. -/
theorem C4_success_output_exact (d : PrintDelimiter) (e : WalkEntry)
    (st : MatcherState) :
    ((Printer.new d none).matches e st ⟨none, none⟩ =
        Except.ok (true,
          { st with output := st.output ++
              [SinkEvent.wrote (toStringLossy e.path ++ d.display),
                SinkEvent.flushed] })) ∧
      ((Printer.new d (some ())).matches e st ⟨none, none⟩ =
        Except.ok (true,
          { st with fileEvents := st.fileEvents ++
              [SinkEvent.wrote (toStringLossy e.path ++ d.display),
                SinkEvent.flushed] })) ∧
      PrintDelimiter.Newline.display = "\n" ∧
      PrintDelimiter.Null.display = String.mk [Char.ofNat 0] ∧
      d.display.length = 1 := by
  refine ⟨?_, ?_, rfl, by decide, ?_⟩
  · simp [Printer.matches, Printer.print, Printer.new]
  · simp [Printer.matches, Printer.print, Printer.new]
  · cases d <;> decide

/-- Claim C6: path rendering is total — the composed line is never empty, a
non-empty path never renders to the empty string, and invalid bytes are
replaced by U+FFFD (shown at a concrete invalid byte). -/
theorem C6_path_rendering_total (bytes : List Nat) (d : PrintDelimiter) :
    (toStringLossy bytes ++ d.display ≠ "") ∧
      (bytes ≠ [] → toStringLossy bytes ≠ "") ∧
      toStringLossy [0xFF, 0x41] = String.mk [replacementChar, Char.ofNat 0x41] := by
  refine ⟨?_, ?_, by decide⟩
  · have h1 : toStringLossy bytes ++ d.display =
        String.mk (utf8DecodeLossy bytes ++ d.display.data) := by
      cases d <;> rfl
    rw [h1]
    intro h
    have h2 : utf8DecodeLossy bytes ++ d.display.data = [] := congrArg String.data h
    have h3 := List.append_eq_nil.mp h2
    cases d <;> exact absurd h3.2 (by decide)
  · intro hb h
    obtain ⟨b, rest, rfl⟩ : ∃ b rest, bytes = b :: rest := by
      cases bytes with
      | nil => exact absurd rfl hb
      | cons b rest => exact ⟨b, rest, rfl⟩
    exact utf8DecodeLossy_cons_ne_nil b rest (congrArg String.data h)

/-- Witness for C6 at a concrete invalid-byte path. -/
theorem C6_witness : toStringLossy [0xFF] ≠ "" :=
  (C6_path_rendering_total [0xFF] PrintDelimiter.Newline).2.1 (by decide)

/-- Claim C7: destination routing — with a file target the write and the
flush go to the file trace (a successful write followed by the flush, or
just the flush when the write failed) and the default sink is untouched;
with no file target the same events go to the default sink and the file
trace is untouched. -/
theorem C7_destination_selection (d : PrintDelimiter) (e : WalkEntry)
    (st : MatcherState) (beh : WriteBehavior) (r1 r2 : Bool × MatcherState)
    (h1 : (Printer.new d (some ())).matches e st beh = Except.ok r1)
    (h2 : (Printer.new d none).matches e st beh = Except.ok r2) :
    (r1.2.output = st.output ∧
        r1.2.fileEvents = st.fileEvents ++
          (match beh.writeErr with
            | none =>
              [SinkEvent.wrote (toStringLossy e.path ++ d.display),
                SinkEvent.flushed]
            | some _ => [SinkEvent.flushed])) ∧
      (r2.2.fileEvents = st.fileEvents ∧
        r2.2.output = st.output ++
          (match beh.writeErr with
            | none =>
              [SinkEvent.wrote (toStringLossy e.path ++ d.display),
                SinkEvent.flushed]
            | some _ => [SinkEvent.flushed])) := by
  obtain ⟨w, fl⟩ := beh
  cases w <;> cases fl <;>
    simp [Printer.matches, Printer.print, Printer.new] at h1 h2 <;>
    subst h1 <;> subst h2 <;>
    exact ⟨⟨rfl, by simp⟩, ⟨rfl, by simp⟩⟩

/-- Concrete result of a file-target invocation used by the C7 witness. -/
def c7r1 : Bool × MatcherState :=
  (true, ⟨0, [], [],
    [SinkEvent.wrote (toStringLossy entryA.path ++ PrintDelimiter.Newline.display),
      SinkEvent.flushed]⟩)

/-- Concrete result of a default-sink invocation used by the C7 witness. -/
def c7r2 : Bool × MatcherState :=
  (true, ⟨0, [],
    [SinkEvent.wrote (toStringLossy entryA.path ++ PrintDelimiter.Newline.display),
      SinkEvent.flushed], []⟩)

/-- Witness for C7 at a concrete pair of invocations. -/
theorem C7_witness :
    (c7r1.2.output = st0.output ∧
        c7r1.2.fileEvents = st0.fileEvents ++
          [SinkEvent.wrote (toStringLossy entryA.path ++
              PrintDelimiter.Newline.display), SinkEvent.flushed]) ∧
      (c7r2.2.fileEvents = st0.fileEvents ∧
        c7r2.2.output = st0.output ++
          [SinkEvent.wrote (toStringLossy entryA.path ++
              PrintDelimiter.Newline.display), SinkEvent.flushed]) :=
  C7_destination_selection PrintDelimiter.Newline entryA st0 ⟨none, none⟩
    c7r1 c7r2 rfl rfl

/-- Claim C8: the configuration chosen at construction is fixed — after any
sequence of `matches` invocations the receiver still has the delimiter and
the optional file handle it was built with. -/
theorem C8_configuration_fixed (d : PrintDelimiter) (f : Option Unit)
    (entries : List (WalkEntry × WriteBehavior)) (st : MatcherState)
    (q : Printer) (st1 : MatcherState)
    (h : Printer.matchesSeq (Printer.new d f) entries st = Except.ok (q, st1)) :
    q.delimiter = d ∧ q.output_file = f := by
  have hq := matchesSeq_printer_eq (Printer.new d f) entries st q st1 h
  subst hq
  exact ⟨rfl, rfl⟩

/-- Witness for C8 after one concrete invocation. -/
theorem C8_witness :
    (Printer.new PrintDelimiter.Null (some ())).delimiter = PrintDelimiter.Null ∧
      (Printer.new PrintDelimiter.Null (some ())).output_file = some () :=
  C8_configuration_fixed PrintDelimiter.Null (some ())
    [(entryA, ⟨none, none⟩)] st0 (Printer.new PrintDelimiter.Null (some ()))
    ⟨0, [], [],
      [SinkEvent.wrote (toStringLossy entryA.path ++ PrintDelimiter.Null.display),
        SinkEvent.flushed]⟩ rfl

end Findutils
